import Mathlib

/-!
# Verification of the DataPit engine (`src/include/data_pit.h`)

A shallow embedding of the `data_pit` class: an in-process multi-queue
broadcast primitive.  Producers append type-tagged records to integer-keyed
queues; consumers read records through private cursors.

Modelling decisions, each traced to the source:

* The two `concurrent_hash_map`s (`m_queues_data`, `m_consumers_data`) are
  modelled as functions `Int → Option QueueData` and `Nat → Option ConsumerData`
  (a hash map is observationally a partial map; `operator[]`
  default-constructs, `at` requires presence, `erase`/`clear` remove).
* C++ template type identity (`std::type_index(typeid(T)).name()`) is an
  opaque string tag; payloads are modelled as `Nat` (the engine never reads
  them).  A record stores its tag (the `std::any` runtime type) and payload.
* Mutexes and the condition variable carry no state relevant to the
  sequential semantics of a single interleaved execution and are dropped;
  `blocking` consume is modelled for the interleaving where no producer runs
  during the wait, so the wait predicate's value is decided immediately.
* The line `while (queue_type(queue_id).empty()) {}` in `consume` busy-waits
  forever when the queue's type string is empty (it spins holding the global
  mutex, so no other thread can ever make the string non-empty).  The model
  makes this outcome explicit as `ConsumeRes.spins`.
* `std::any_cast<T>` throwing `bad_any_cast` is the explicit outcome
  `ConsumeRes.castFail`.
-/

/-- `DATA_PIT_MAX_QUEUE_SIZE` from the header. -/
def DATA_PIT_MAX_QUEUE_SIZE : Nat := 1000

/-- `std::numeric_limits<unsigned int>::max()`. -/
def UINT_MAX : Nat := 2 ^ 32 - 1

/-- The `data_pit_result` enum. -/
inductive data_pit_result where
  | success
  | consumer_not_found
  | timeout_expired
  | no_data_available
  | type_mismatch
  | queue_is_full
deriving DecidableEq, Repr

/-- One stored record: a `std::any` payload together with its runtime type
identity. -/
structure Rec where
  ty : String
  val : Nat
deriving DecidableEq, Repr

/-- The per-queue entry `data_t` (vector of records, maximum size, bound type
string); the mutex and condition variable carry no sequential state. -/
structure QueueData where
  items : List Rec
  capacity : Nat
  ty : String
deriving DecidableEq, Repr

/-- The per-consumer entry `consumer_data_t`: bound queue id, read cursor,
latched last error. -/
structure ConsumerData where
  queue_id : Int
  index : Nat
  last_error : data_pit_result
deriving DecidableEq, Repr

/-- The whole engine state (`data_pit`'s fields). -/
structure DataPit where
  queues : Int → Option QueueData
  consumers : Nat → Option ConsumerData
  next_consumer_id : Nat
  released_ids : List Nat

namespace DataPit

/-- The freshly constructed engine: `m_next_consumer_id(1)` and cleared maps. -/
def initState : DataPit :=
  { queues := fun _ => none
    consumers := fun _ => none
    next_consumer_id := 1
    released_ids := [] }

/-- Store (insert or overwrite) a queue entry. -/
def setQueue (st : DataPit) (qid : Int) (q : QueueData) : DataPit :=
  { st with queues := fun k => if k = qid then some q else st.queues k }

/-- Store (insert or overwrite) a consumer entry. -/
def setConsumer (st : DataPit) (cid : Nat) (c : ConsumerData) : DataPit :=
  { st with consumers := fun k => if k = cid then some c else st.consumers k }

/-- Remove a consumer entry (`m_consumers_data.erase`). -/
def eraseConsumer (st : DataPit) (cid : Nat) : DataPit :=
  { st with consumers := fun k => if k = cid then none else st.consumers k }

/-- `init_queue`: `m_queues_data[queue_id]` default-constructs the entry when
absent; then the record vector is cleared and the capacity set to
`DATA_PIT_MAX_QUEUE_SIZE`.  The type string (`std::get<1>`) is not touched, so
an existing entry keeps its type and a fresh entry has the empty string. -/
def init_queue (st : DataPit) (qid : Int) : DataPit :=
  let ty := match st.queues qid with
            | some q => q.ty
            | none => ""
  setQueue st qid ⟨[], DATA_PIT_MAX_QUEUE_SIZE, ty⟩

/-- `set_last_error`: a no-op when the consumer id is unknown. -/
def set_last_error (st : DataPit) (cid : Nat) (e : data_pit_result) : DataPit :=
  match st.consumers cid with
  | none => st
  | some c => setConsumer st cid { c with last_error := e }

/-- The tail of `produce` after the queue entry is known to exist
(capacity check, then set the type tag and push the record). -/
def producePush (st : DataPit) (qid : Int) (q : QueueData) (ty : String)
    (v : Nat) : data_pit_result × DataPit :=
  if q.capacity ≤ q.items.length then (.queue_is_full, st)
  else (.success, setQueue st qid { q with ty := ty, items := q.items ++ [⟨ty, v⟩] })

/-- `data_pit::produce<T>(queue_id, data)` with `ty` the type identity of `T`
and `v` the payload.  If the queue exists, is non-empty and its bound type
differs, fail with `type_mismatch` and no mutation; if the queue is absent,
initialize it; then enforce capacity and append. -/
def produce (st : DataPit) (qid : Int) (ty : String) (v : Nat) :
    data_pit_result × DataPit :=
  match st.queues qid with
  | some q =>
    if q.items ≠ [] ∧ q.ty ≠ ty then (.type_mismatch, st)
    else producePush st qid q ty v
  | none =>
    producePush (init_queue st qid) qid ⟨[], DATA_PIT_MAX_QUEUE_SIZE, ""⟩ ty v

/-- How a `consume` call ends. -/
inductive ConsumeRes where
  /-- The call returns, with this optional value. -/
  | ret (v : Option Nat)
  /-- The call is stuck in `while (queue_type(queue_id).empty()) {}`:
  it holds the global mutex, so the string can never become non-empty. -/
  | spins
  /-- `std::any_cast<T>` throws: the stored record's type differs from the
  requested one. -/
  | castFail
deriving DecidableEq, Repr

/-- The tail of `consume` after the consumer entry `c` and the (possibly just
created) queue entry `q` are in hand: optional blocking wait, availability
check, fetch at the cursor, cursor advance.  In the sequential model a
blocking wait whose predicate is false at entry times out (no producer can
interleave inside one modelled call). -/
def consumeFetch (st : DataPit) (cid : Nat) (c : ConsumerData) (q : QueueData)
    (ty : String) (blocking : Bool) : ConsumeRes × DataPit :=
  if blocking ∧ q.items.length ≤ c.index then
    (.ret none, set_last_error st cid .timeout_expired)
  else if q.items.length ≤ c.index then
    (.ret none, set_last_error st cid .no_data_available)
  else
    let r := q.items.getD c.index ⟨"", 0⟩
    if r.ty ≠ ty then (.castFail, st)
    else (.ret (some r.val), setConsumer st cid { c with index := c.index + 1 })

/-- Overwrite the bound type of an existing queue (the assignment
`queue_type(queue_id) = std::type_index(typeid(T)).name()` in `consume`'s
queue-creating branch). -/
def set_queue_type (st : DataPit) (qid : Int) (ty : String) : DataPit :=
  match st.queues qid with
  | none => st
  | some q => setQueue st qid { q with ty := ty }

/-- `data_pit::consume<T>(consumer_id, blocking, timeout)` with `ty` the type
identity of `T`.  Unknown consumer → `consumer_not_found` (latched only if the
entry exists, hence a no-op).  Existing queue: spin while its type string is
empty, then compare types.  Absent queue: create it and bind it to `ty`. -/
def consume (st : DataPit) (cid : Nat) (ty : String) (blocking : Bool) :
    ConsumeRes × DataPit :=
  match st.consumers cid with
  | none => (.ret none, set_last_error st cid .consumer_not_found)
  | some c =>
    match st.queues c.queue_id with
    | some q =>
      if q.ty = "" then (.spins, st)
      else if q.ty ≠ ty then (.ret none, set_last_error st cid .type_mismatch)
      else consumeFetch st cid c q ty blocking
    | none =>
      let st1 := set_queue_type (init_queue st c.queue_id) c.queue_id ty
      consumeFetch st1 cid c ⟨[], DATA_PIT_MAX_QUEUE_SIZE, ty⟩ ty blocking

/-- `register_id`: pop the FIFO of released ids if non-empty, else take the
monotone counter unless it has reached `UINT_MAX` (then return 0). -/
def register_id (st : DataPit) : Nat × DataPit :=
  match st.released_ids with
  | id :: rest => (id, { st with released_ids := rest })
  | [] =>
    if st.next_consumer_id = UINT_MAX then (0, st)
    else (st.next_consumer_id, { st with next_consumer_id := st.next_consumer_id + 1 })

/-- `register_consumer(queue_id)`: allocate an id; 0 means exhaustion and no
registration; otherwise bind the consumer to the queue with cursor 0 and last
error `success`. -/
def register_consumer (st : DataPit) (qid : Int) : Nat × DataPit :=
  let p := register_id st
  if p.1 = 0 then (0, p.2)
  else (p.1, setConsumer p.2 p.1 ⟨qid, 0, .success⟩)

/-- `unregister_id`: unconditionally push the id onto the released-ids FIFO. -/
def unregister_id (st : DataPit) (cid : Nat) : DataPit :=
  { st with released_ids := st.released_ids ++ [cid] }

/-- `unregister_consumer`: release the id, then erase the consumer entry. -/
def unregister_consumer (st : DataPit) (cid : Nat) : DataPit :=
  eraseConsumer (unregister_id st cid) cid

/-- `clear_queue`: clear the record vector of the queue (the entry, its
capacity and its type string survive).  `queue(queue_id)` uses `at`, which on
an absent key throws; no claim exercises that path, and the model leaves the
state unchanged there. -/
def clear_queue (st : DataPit) (qid : Int) : DataPit :=
  match st.queues qid with
  | none => st
  | some q => setQueue st qid { q with items := [] }

/-- `clear_all_queues`: `m_queues_data.clear()`. -/
def clear_all_queues (st : DataPit) : DataPit :=
  { st with queues := fun _ => none }

/-- `reset_consumer`: reset the cursor to 0 when the consumer exists. -/
def reset_consumer (st : DataPit) (cid : Nat) : DataPit :=
  match st.consumers cid with
  | none => st
  | some c => setConsumer st cid { c with index := 0 }

/-- `set_queue_size(queue_id, size)`: create the queue if absent
(via `init_queue`, so with no records and the empty type string), then set its
capacity.  An existing queue keeps its records and type. -/
def set_queue_size (st : DataPit) (qid : Int) (n : Nat) : DataPit :=
  match st.queues qid with
  | some q => setQueue st qid { q with capacity := n }
  | none => setQueue (init_queue st qid) qid ⟨[], n, ""⟩

/-- `get_last_error`: `consumer_not_found` for an unknown id, else the latched
error. -/
def get_last_error (st : DataPit) (cid : Nat) : data_pit_result :=
  match st.consumers cid with
  | none => .consumer_not_found
  | some c => c.last_error

/-- The public operations of the engine, for reachability statements. -/
inductive Op where
  | produce (qid : Int) (ty : String) (v : Nat)
  | consume (cid : Nat) (ty : String) (blocking : Bool)
  | register (qid : Int)
  | unregister (cid : Nat)
  | reset (cid : Nat)
  | setQueueSize (qid : Int) (n : Nat)
  | clearQueue (qid : Int)
  | clearAll
deriving DecidableEq, Repr

/-- The state after one public operation (return values discarded). -/
def step (st : DataPit) : Op → DataPit
  | .produce qid ty v => (produce st qid ty v).2
  | .consume cid ty b => (consume st cid ty b).2
  | .register qid => (register_consumer st qid).2
  | .unregister cid => unregister_consumer st cid
  | .reset cid => reset_consumer st cid
  | .setQueueSize qid n => set_queue_size st qid n
  | .clearQueue qid => clear_queue st qid
  | .clearAll => clear_all_queues st

/-- The state after a sequence of public operations. -/
def run (st : DataPit) (ops : List Op) : DataPit :=
  ops.foldl step st

/-- A state the engine can actually be in: reachable from a fresh `data_pit`
by some sequence of public operations. -/
def Reachable (st : DataPit) : Prop :=
  ∃ ops : List Op, run initState ops = st

/-- Operations other than `clear_queue` and `clear_all_queues`. -/
def clearFree : Op → Bool
  | .clearQueue _ => false
  | .clearAll => false
  | _ => true

/-- Every record of every queue carries the queue's bound type string. -/
def WellTyped (st : DataPit) : Prop :=
  ∀ qid q, st.queues qid = some q → ∀ r ∈ q.items, r.ty = q.ty

/-- The record sequence of a queue (empty when the queue is absent). -/
def queueItems (st : DataPit) (qid : Int) : List Rec :=
  match st.queues qid with
  | none => []
  | some q => q.items

/-- The bound type string of a queue (empty when the queue is absent). -/
def queueTy (st : DataPit) (qid : Int) : String :=
  match st.queues qid with
  | none => ""
  | some q => q.ty

/-- The capacity of a queue, when it exists. -/
def queueCapacity (st : DataPit) (qid : Int) : Option Nat :=
  match st.queues qid with
  | none => none
  | some q => some q.capacity

/-- Sequence length of a queue (0 when absent). -/
def qlen (st : DataPit) (qid : Int) : Nat :=
  (queueItems st qid).length

/-- Every registered consumer's cursor is at most the length of its bound
queue's record sequence. -/
def CursorInv (st : DataPit) : Prop :=
  ∀ cid c, st.consumers cid = some c → c.index ≤ qlen st c.queue_id

/-- Run a sequence of `produce` calls for the given values, collecting the
results. -/
def produceAll (qid : Int) (ty : String) :
    DataPit → List Nat → List data_pit_result × DataPit
  | st, [] => ([], st)
  | st, v :: vs =>
    let p := produce st qid ty v
    let rq := produceAll qid ty p.2 vs
    (p.1 :: rq.1, rq.2)

/-- Run one non-blocking `consume` per listed consumer id, in order, tagging
each result with the calling consumer. -/
def runConsumes (ty : String) :
    DataPit → List Nat → List (Nat × ConsumeRes) × DataPit
  | st, [] => ([], st)
  | st, cid :: rest =>
    let p := consume st cid ty false
    let rq := runConsumes ty p.2 rest
    ((cid, p.1) :: rq.1, rq.2)

/-- The results received by one consumer, in call order. -/
def resultsFor (cid : Nat) (l : List (Nat × ConsumeRes)) : List ConsumeRes :=
  (l.filter (fun p => p.1 = cid)).map Prod.snd

section Lemmas

variable {st : DataPit} {qid k : Int} {cid c2id : Nat} {q : QueueData}
variable {c : ConsumerData} {ty : String} {v : Nat} {e : data_pit_result}

theorem queues_setConsumer (st : DataPit) (cid : Nat) (c : ConsumerData) :
    (setConsumer st cid c).queues = st.queues := rfl

theorem consumers_setQueue (st : DataPit) (qid : Int) (q : QueueData) :
    (setQueue st qid q).consumers = st.consumers := rfl

theorem setQueue_queues_self (st : DataPit) (qid : Int) (q : QueueData) :
    (setQueue st qid q).queues qid = some q := by
  simp [setQueue]

theorem setQueue_queues_ne (st : DataPit) (q : QueueData) (h : k ≠ qid) :
    (setQueue st qid q).queues k = st.queues k := by
  simp [setQueue, h]

theorem setConsumer_consumers_self (st : DataPit) (cid : Nat) (c : ConsumerData) :
    (setConsumer st cid c).consumers cid = some c := by
  simp [setConsumer]

theorem setConsumer_consumers_ne (st : DataPit) (c : ConsumerData)
    (h : c2id ≠ cid) :
    (setConsumer st cid c).consumers c2id = st.consumers c2id := by
  simp [setConsumer, h]

theorem queues_set_last_error (st : DataPit) (cid : Nat) (e : data_pit_result) :
    (set_last_error st cid e).queues = st.queues := by
  unfold set_last_error
  cases st.consumers cid <;> rfl

theorem set_last_error_index (st : DataPit) (cid c2id : Nat) (e : data_pit_result) :
    ((set_last_error st cid e).consumers c2id).map ConsumerData.queue_id
        = (st.consumers c2id).map ConsumerData.queue_id
    ∧ ((set_last_error st cid e).consumers c2id).map ConsumerData.index
        = (st.consumers c2id).map ConsumerData.index := by
  unfold set_last_error
  cases h : st.consumers cid with
  | none => exact ⟨rfl, rfl⟩
  | some c =>
    by_cases hc : c2id = cid
    · subst hc
      rw [setConsumer_consumers_self, h]
      exact ⟨rfl, rfl⟩
    · rw [setConsumer_consumers_ne st _ hc]
      exact ⟨rfl, rfl⟩

theorem queues_register_id (st : DataPit) :
    (register_id st).2.queues = st.queues := by
  cases h : st.released_ids with
  | nil =>
    by_cases hm : st.next_consumer_id = UINT_MAX <;> simp [register_id, h, hm]
  | cons a l => simp [register_id, h]

theorem queues_register (st : DataPit) (qid : Int) :
    (register_consumer st qid).2.queues = st.queues := by
  unfold register_consumer
  by_cases h0 : (register_id st).1 = 0 <;>
    simp [h0, queues_setConsumer, queues_register_id]

theorem setQueue_setQueue (st : DataPit) (qid : Int) (q1 q2 : QueueData) :
    setQueue (setQueue st qid q1) qid q2 = setQueue st qid q2 := by
  unfold setQueue
  congr 1
  funext k
  by_cases h : k = qid <;> simp [h]

theorem init_queue_of_absent (st : DataPit) (qid : Int)
    (hq : st.queues qid = none) :
    init_queue st qid = setQueue st qid ⟨[], DATA_PIT_MAX_QUEUE_SIZE, ""⟩ := by
  simp [init_queue, hq]

/-- `produce` on an existing, non-empty queue with a different bound type:
type mismatch, state untouched. -/
theorem produce_eq_mismatch (st : DataPit) (qid : Int) (ty : String) (v : Nat)
    (q : QueueData) (hq : st.queues qid = some q)
    (h1 : q.items ≠ []) (h2 : q.ty ≠ ty) :
    produce st qid ty v = (.type_mismatch, st) := by
  simp [produce, hq, h1, h2]

/-- `produce` on an existing queue that passes the type check but is at
capacity: queue full, state untouched. -/
theorem produce_eq_full (st : DataPit) (qid : Int) (ty : String) (v : Nat)
    (q : QueueData) (hq : st.queues qid = some q)
    (hok : q.items = [] ∨ q.ty = ty) (hc : q.capacity ≤ q.items.length) :
    produce st qid ty v = (.queue_is_full, st) := by
  have hg : ¬ (q.items ≠ [] ∧ q.ty ≠ ty) := by
    rcases hok with h | h <;> simp [h]
  simp [produce, hq, hg, producePush, hc]

/-- `produce` on an existing queue that passes the type and capacity checks:
append the record and (re)bind the type. -/
theorem produce_eq_push (st : DataPit) (qid : Int) (ty : String) (v : Nat)
    (q : QueueData) (hq : st.queues qid = some q)
    (hok : q.items = [] ∨ q.ty = ty) (hc : q.items.length < q.capacity) :
    produce st qid ty v
      = (.success, setQueue st qid ⟨q.items ++ [⟨ty, v⟩], q.capacity, ty⟩) := by
  have hg : ¬ (q.items ≠ [] ∧ q.ty ≠ ty) := by
    rcases hok with h | h <;> simp [h]
  simp [produce, hq, hg, producePush, Nat.not_le.mpr hc]

/-- `produce` on an absent queue: create it with the default capacity and
append the one record. -/
theorem produce_eq_absent (st : DataPit) (qid : Int) (ty : String) (v : Nat)
    (hq : st.queues qid = none) :
    produce st qid ty v
      = (.success, setQueue st qid ⟨[⟨ty, v⟩], DATA_PIT_MAX_QUEUE_SIZE, ty⟩) := by
  simp [produce, hq, producePush, init_queue_of_absent st qid hq,
        DATA_PIT_MAX_QUEUE_SIZE, setQueue_setQueue]

/-- `consume` with an unregistered consumer id: `consumer_not_found`, an error
that cannot even be latched (the entry is missing), so the state is
untouched. -/
theorem consume_eq_not_found (st : DataPit) (cid : Nat) (ty : String) (b : Bool)
    (hc : st.consumers cid = none) :
    consume st cid ty b = (.ret none, st) := by
  simp [consume, hc, set_last_error]

/-- `consume` against an existing queue whose type string is empty: the
busy-wait never exits. -/
theorem consume_eq_spins (st : DataPit) (cid : Nat) (ty : String) (b : Bool)
    (c : ConsumerData) (q : QueueData)
    (hc : st.consumers cid = some c) (hq : st.queues c.queue_id = some q)
    (hty : q.ty = "") :
    consume st cid ty b = (.spins, st) := by
  simp [consume, hc, hq, hty]

/-- `consume` against an existing queue bound to a different type: latch
`type_mismatch`, return nothing. -/
theorem consume_eq_mismatch (st : DataPit) (cid : Nat) (ty : String) (b : Bool)
    (c : ConsumerData) (q : QueueData)
    (hc : st.consumers cid = some c) (hq : st.queues c.queue_id = some q)
    (h1 : q.ty ≠ "") (h2 : q.ty ≠ ty) :
    consume st cid ty b = (.ret none, set_last_error st cid .type_mismatch) := by
  simp [consume, hc, hq, h1, h2]

/-- Non-blocking `consume` with a matching type but no record at the cursor:
latch `no_data_available`. -/
theorem consume_eq_nodata (st : DataPit) (cid : Nat) (ty : String)
    (c : ConsumerData) (q : QueueData)
    (hc : st.consumers cid = some c) (hq : st.queues c.queue_id = some q)
    (h1 : q.ty = ty) (hty : ty ≠ "") (hlen : q.items.length ≤ c.index) :
    consume st cid ty false
      = (.ret none, set_last_error st cid .no_data_available) := by
  have h0 : q.ty ≠ "" := h1 ▸ hty
  simp [consume, hc, hq, h0, h1, hty, consumeFetch, hlen]

/-- Blocking `consume` with a matching type but no record at the cursor: in a
sequential execution the wait predicate stays false and the call times out. -/
theorem consume_eq_timeout (st : DataPit) (cid : Nat) (ty : String)
    (c : ConsumerData) (q : QueueData)
    (hc : st.consumers cid = some c) (hq : st.queues c.queue_id = some q)
    (h1 : q.ty = ty) (hty : ty ≠ "") (hlen : q.items.length ≤ c.index) :
    consume st cid ty true
      = (.ret none, set_last_error st cid .timeout_expired) := by
  have h0 : q.ty ≠ "" := h1 ▸ hty
  simp [consume, hc, hq, h0, h1, hty, consumeFetch, hlen]

/-- `consume` with a matching type and a record at the cursor whose stored
type matches: return its payload and advance the cursor; nothing else (not
even the latched error) changes. -/
theorem consume_eq_ok (st : DataPit) (cid : Nat) (ty : String) (b : Bool)
    (c : ConsumerData) (q : QueueData)
    (hc : st.consumers cid = some c) (hq : st.queues c.queue_id = some q)
    (h1 : q.ty = ty) (hty : ty ≠ "") (hi : c.index < q.items.length)
    (hr : (q.items.getD c.index ⟨"", 0⟩).ty = ty) :
    consume st cid ty b
      = (.ret (some ((q.items.getD c.index ⟨"", 0⟩).val)),
         setConsumer st cid ⟨c.queue_id, c.index + 1, c.last_error⟩) := by
  have h0 : q.ty ≠ "" := h1 ▸ hty
  have hnl : ¬ q.items.length ≤ c.index := Nat.not_le.mpr hi
  have hr2 := hr
  simp only [List.getD_eq_getElem?_getD] at hr2
  simp [consume, hc, hq, h0, h1, hty, consumeFetch, hnl, hr2]

/-- `consume` naming an absent queue: the queue is created, bound to the
requested type, and the call reports no data (or a timeout when blocking). -/
theorem consume_eq_absent (st : DataPit) (cid : Nat) (ty : String) (b : Bool)
    (c : ConsumerData)
    (hc : st.consumers cid = some c) (hq : st.queues c.queue_id = none) :
    consume st cid ty b
      = (.ret none,
         set_last_error (setQueue st c.queue_id ⟨[], DATA_PIT_MAX_QUEUE_SIZE, ty⟩)
           cid (if b then .timeout_expired else .no_data_available)) := by
  have hset : set_queue_type (init_queue st c.queue_id) c.queue_id ty
      = setQueue st c.queue_id ⟨[], DATA_PIT_MAX_QUEUE_SIZE, ty⟩ := by
    rw [init_queue_of_absent st c.queue_id hq]
    simp [set_queue_type, setQueue_queues_self, setQueue_setQueue]
  cases b <;> simp [consume, hc, hq, hset, consumeFetch]

theorem wellTyped_of_queues_eq {st1 st : DataPit}
    (h : st1.queues = st.queues) (hw : WellTyped st) : WellTyped st1 := by
  intro qid q hq r hr
  exact hw qid q (h ▸ hq) r hr

theorem wellTyped_setQueue {st : DataPit} {qid : Int} {q : QueueData}
    (hw : WellTyped st) (hq : ∀ r ∈ q.items, r.ty = q.ty) :
    WellTyped (setQueue st qid q) := by
  intro k qk hk r hr
  by_cases hkq : k = qid
  · subst hkq
    rw [setQueue_queues_self] at hk
    injection hk with h
    subst h
    exact hq r hr
  · rw [setQueue_queues_ne st q hkq] at hk
    exact hw k qk hk r hr

theorem wellTyped_produce {st : DataPit} (qid : Int) (ty : String) (v : Nat)
    (hw : WellTyped st) : WellTyped (produce st qid ty v).2 := by
  cases hq : st.queues qid with
  | some q =>
    by_cases he : q.items = []
    · by_cases hc : q.items.length < q.capacity
      · rw [produce_eq_push st qid ty v q hq (Or.inl he) hc]
        apply wellTyped_setQueue hw
        intro r hr
        simp [he] at hr
        simp [hr]
      · rw [produce_eq_full st qid ty v q hq (Or.inl he) (Nat.not_lt.mp hc)]
        exact hw
    · by_cases hb : q.ty = ty
      · by_cases hc : q.items.length < q.capacity
        · rw [produce_eq_push st qid ty v q hq (Or.inr hb) hc]
          apply wellTyped_setQueue hw
          intro r hr
          simp at hr
          rcases hr with hr | hr
          · exact hb ▸ hw qid q hq r hr
          · simp [hr]
        · rw [produce_eq_full st qid ty v q hq (Or.inr hb) (Nat.not_lt.mp hc)]
          exact hw
      · rw [produce_eq_mismatch st qid ty v q hq he hb]
        exact hw
  | none =>
    rw [produce_eq_absent st qid ty v hq]
    apply wellTyped_setQueue hw
    intro r hr
    simp at hr
    simp [hr]

theorem wellTyped_consume {st : DataPit} (cid : Nat) (ty : String) (b : Bool)
    (hw : WellTyped st) : WellTyped (consume st cid ty b).2 := by
  cases hc : st.consumers cid with
  | none => rw [consume_eq_not_found st cid ty b hc]; exact hw
  | some c =>
    cases hq : st.queues c.queue_id with
    | some q =>
      by_cases h0 : q.ty = ""
      · rw [consume_eq_spins st cid ty b c q hc hq h0]; exact hw
      · by_cases h1 : q.ty = ty
        · have hty : ty ≠ "" := h1 ▸ h0
          by_cases hi : c.index < q.items.length
          · by_cases hr : (q.items.getD c.index ⟨"", 0⟩).ty = ty
            · rw [consume_eq_ok st cid ty b c q hc hq h1 hty hi hr]
              exact wellTyped_of_queues_eq (queues_setConsumer st cid _) hw
            · -- any_cast would throw; the state is returned unchanged
              cases b
              · have : consume st cid ty false = (.castFail, st) := by
                  simp [consume, hc, hq, h0, h1, hty, consumeFetch,
                        Nat.not_le.mpr hi]
                  intro h
                  exact absurd (by simpa [List.getD_eq_getElem?_getD] using h) hr
                rw [this]; exact hw
              · have : consume st cid ty true = (.castFail, st) := by
                  simp [consume, hc, hq, h0, h1, hty, consumeFetch,
                        Nat.not_le.mpr hi]
                  intro h
                  exact absurd (by simpa [List.getD_eq_getElem?_getD] using h) hr
                rw [this]; exact hw
          · cases b
            · rw [consume_eq_nodata st cid ty c q hc hq h1 hty (Nat.not_lt.mp hi)]
              exact wellTyped_of_queues_eq (queues_set_last_error st cid _) hw
            · rw [consume_eq_timeout st cid ty c q hc hq h1 hty (Nat.not_lt.mp hi)]
              exact wellTyped_of_queues_eq (queues_set_last_error st cid _) hw
        · rw [consume_eq_mismatch st cid ty b c q hc hq h0 h1]
          exact wellTyped_of_queues_eq (queues_set_last_error st cid _) hw
    | none =>
      rw [consume_eq_absent st cid ty b c hc hq]
      apply wellTyped_of_queues_eq (queues_set_last_error _ cid _)
      apply wellTyped_setQueue hw
      intro r hr
      simp at hr

theorem wellTyped_step {st : DataPit} (op : Op) (hw : WellTyped st) :
    WellTyped (step st op) := by
  cases op with
  | produce qid ty v => exact wellTyped_produce qid ty v hw
  | consume cid ty b => exact wellTyped_consume cid ty b hw
  | register qid =>
    exact wellTyped_of_queues_eq (queues_register st qid) hw
  | unregister cid => exact wellTyped_of_queues_eq rfl hw
  | reset cid =>
    have h : (reset_consumer st cid).queues = st.queues := by
      unfold reset_consumer
      cases st.consumers cid <;> rfl
    exact wellTyped_of_queues_eq h hw
  | setQueueSize qid n =>
    show WellTyped (set_queue_size st qid n)
    cases hq : st.queues qid with
    | some q =>
      rw [show set_queue_size st qid n = setQueue st qid ⟨q.items, n, q.ty⟩ by
            simp [set_queue_size, hq]]
      exact wellTyped_setQueue hw (fun r hr => hw qid q hq r hr)
    | none =>
      rw [show set_queue_size st qid n = setQueue (init_queue st qid) qid ⟨[], n, ""⟩ by
            simp [set_queue_size, hq]]
      rw [init_queue_of_absent st qid hq, setQueue_setQueue]
      exact wellTyped_setQueue hw (by intro r hr; simp at hr)
  | clearQueue qid =>
    show WellTyped (clear_queue st qid)
    cases hq : st.queues qid with
    | some q =>
      rw [show clear_queue st qid = setQueue st qid ⟨[], q.capacity, q.ty⟩ by
            simp [clear_queue, hq]]
      exact wellTyped_setQueue hw (by intro r hr; simp at hr)
    | none =>
      rw [show clear_queue st qid = st by simp [clear_queue, hq]]
      exact hw
  | clearAll =>
    intro qid q hq r hr
    simp [step, clear_all_queues] at hq

theorem wellTyped_initState : WellTyped initState := by
  intro qid q hq
  simp [initState] at hq

theorem wellTyped_run (ops : List Op) (st : DataPit) (h : WellTyped st) :
    WellTyped (run st ops) := by
  induction ops generalizing st with
  | nil => exact h
  | cons op rest ih => exact ih _ (wellTyped_step op h)

/-- Every reachable engine state stores records whose type tags agree with the
owning queue's bound type. -/
theorem reachable_wellTyped {st : DataPit} (h : Reachable st) : WellTyped st := by
  obtain ⟨ops, rfl⟩ := h
  exact wellTyped_run ops _ wellTyped_initState

theorem qlen_congr {st1 st : DataPit} (h : st1.queues = st.queues) (k : Int) :
    qlen st1 k = qlen st k := by
  unfold qlen queueItems
  rw [h]

theorem qlen_setQueue_self (st : DataPit) (qid : Int) (q : QueueData) :
    qlen (setQueue st qid q) qid = q.items.length := by
  unfold qlen queueItems
  rw [setQueue_queues_self]

theorem qlen_setQueue_ne (st : DataPit) (q : QueueData) (h : k ≠ qid) :
    qlen (setQueue st qid q) k = qlen st k := by
  unfold qlen queueItems
  rw [setQueue_queues_ne st q h]

theorem qlen_of_some (hq : st.queues qid = some q) :
    qlen st qid = q.items.length := by
  unfold qlen queueItems
  rw [hq]

theorem qlen_of_none (hq : st.queues qid = none) : qlen st qid = 0 := by
  simp [qlen, queueItems, hq]

theorem consumers_produce (st : DataPit) (qid : Int) (ty : String) (v : Nat) :
    (produce st qid ty v).2.consumers = st.consumers := by
  unfold produce producePush init_queue
  cases st.queues qid <;> dsimp only []
  case none => split <;> rfl
  case some q =>
    split
    · rfl
    · split <;> rfl

/-- `produce` never shortens any queue. -/
theorem produce_qlen_mono (st : DataPit) (qid : Int) (ty : String) (v : Nat)
    (k : Int) : qlen st k ≤ qlen (produce st qid ty v).2 k := by
  cases hq : st.queues qid with
  | some q =>
    by_cases hg : q.items ≠ [] ∧ q.ty ≠ ty
    · rw [produce_eq_mismatch st qid ty v q hq hg.1 hg.2]
    · have hok : q.items = [] ∨ q.ty = ty := by
        rcases not_and_or.mp hg with h | h
        · exact Or.inl (not_not.mp h)
        · exact Or.inr (not_not.mp h)
      by_cases hc : q.items.length < q.capacity
      · rw [produce_eq_push st qid ty v q hq hok hc]
        by_cases hk : k = qid
        · subst hk
          rw [qlen_setQueue_self, qlen_of_some hq]
          simp
        · rw [qlen_setQueue_ne st _ hk]
      · rw [produce_eq_full st qid ty v q hq hok (Nat.not_lt.mp hc)]
  | none =>
    rw [produce_eq_absent st qid ty v hq]
    by_cases hk : k = qid
    · subst hk
      rw [qlen_setQueue_self, qlen_of_none hq]
      simp
    · rw [qlen_setQueue_ne st _ hk]

theorem cursorInv_produce {st : DataPit} (qid : Int) (ty : String) (v : Nat)
    (h : CursorInv st) : CursorInv (produce st qid ty v).2 := by
  intro cid c hc
  rw [consumers_produce] at hc
  exact le_trans (h cid c hc) (produce_qlen_mono st qid ty v c.queue_id)

theorem cursorInv_set_last_error {st : DataPit} (cid : Nat)
    (e : data_pit_result) (h : CursorInv st) :
    CursorInv (set_last_error st cid e) := by
  intro c2id c hc
  obtain ⟨h1, h2⟩ := set_last_error_index st cid c2id e
  rw [hc] at h1 h2
  cases hc2 : st.consumers c2id with
  | none =>
    rw [hc2] at h1
    simp at h1
  | some c2 =>
    rw [hc2] at h1 h2
    simp at h1 h2
    rw [qlen_congr (queues_set_last_error st cid e), h1, h2]
    exact h c2id c2 hc2

theorem cursorInv_consume {st : DataPit} (cid : Nat) (ty : String) (b : Bool)
    (h : CursorInv st) : CursorInv (consume st cid ty b).2 := by
  cases hc : st.consumers cid with
  | none => rw [consume_eq_not_found st cid ty b hc]; exact h
  | some c =>
    cases hq : st.queues c.queue_id with
    | some q =>
      by_cases h0 : q.ty = ""
      · rw [consume_eq_spins st cid ty b c q hc hq h0]; exact h
      · by_cases h1 : q.ty = ty
        · have hty : ty ≠ "" := h1 ▸ h0
          by_cases hi : c.index < q.items.length
          · by_cases hr : (q.items.getD c.index ⟨"", 0⟩).ty = ty
            · rw [consume_eq_ok st cid ty b c q hc hq h1 hty hi hr]
              intro c2id c2 hc2
              have hql : ∀ x, qlen (setConsumer st cid ⟨c.queue_id, c.index + 1, c.last_error⟩) x = qlen st x :=
                qlen_congr (queues_setConsumer st cid _)
              by_cases hcc : c2id = cid
              · subst hcc
                rw [setConsumer_consumers_self] at hc2
                injection hc2 with hc2
                subst hc2
                rw [hql, qlen_of_some hq]
                exact hi
              · rw [setConsumer_consumers_ne st _ hcc] at hc2
                rw [hql]
                exact h c2id c2 hc2
            · cases b
              · have hcf : consume st cid ty false = (.castFail, st) := by
                  simp [consume, hc, hq, h0, h1, hty, consumeFetch,
                        Nat.not_le.mpr hi]
                  intro hx
                  exact absurd (by simpa [List.getD_eq_getElem?_getD] using hx) hr
                rw [hcf]; exact h
              · have hcf : consume st cid ty true = (.castFail, st) := by
                  simp [consume, hc, hq, h0, h1, hty, consumeFetch,
                        Nat.not_le.mpr hi]
                  intro hx
                  exact absurd (by simpa [List.getD_eq_getElem?_getD] using hx) hr
                rw [hcf]; exact h
          · cases b
            · rw [consume_eq_nodata st cid ty c q hc hq h1 hty (Nat.not_lt.mp hi)]
              exact cursorInv_set_last_error cid _ h
            · rw [consume_eq_timeout st cid ty c q hc hq h1 hty (Nat.not_lt.mp hi)]
              exact cursorInv_set_last_error cid _ h
        · rw [consume_eq_mismatch st cid ty b c q hc hq h0 h1]
          exact cursorInv_set_last_error cid _ h
    | none =>
      rw [consume_eq_absent st cid ty b c hc hq]
      apply cursorInv_set_last_error
      intro c2id c2 hc2
      rw [consumers_setQueue] at hc2
      by_cases hk : c2.queue_id = c.queue_id
      · rw [hk, qlen_setQueue_self]
        have := h c2id c2 hc2
        rw [hk, qlen_of_none hq] at this
        simpa using this
      · rw [qlen_setQueue_ne st _ hk]
        exact h c2id c2 hc2

theorem consumers_register_id (st : DataPit) :
    (register_id st).2.consumers = st.consumers := by
  cases h : st.released_ids with
  | nil =>
    by_cases hm : st.next_consumer_id = UINT_MAX <;> simp [register_id, h, hm]
  | cons a l => simp [register_id, h]

theorem register_cases (st : DataPit) (qid : Int) :
    (register_consumer st qid).2 = (register_id st).2
    ∨ (register_consumer st qid).2
        = setConsumer (register_id st).2 (register_id st).1 ⟨qid, 0, .success⟩ := by
  unfold register_consumer
  by_cases h0 : (register_id st).1 = 0 <;> simp [h0]

theorem cursorInv_register {st : DataPit} (qid : Int) (h : CursorInv st) :
    CursorInv (register_consumer st qid).2 := by
  rcases register_cases st qid with hr | hr <;> rw [hr] <;> intro cid c hc
  · rw [consumers_register_id] at hc
    rw [qlen_congr (queues_register_id st)]
    exact h cid c hc
  · rw [qlen_congr (by rw [queues_setConsumer, queues_register_id] :
          (setConsumer (register_id st).2 (register_id st).1
            ⟨qid, 0, .success⟩).queues = st.queues)]
    by_cases hcc : cid = (register_id st).1
    · subst hcc
      rw [setConsumer_consumers_self] at hc
      injection hc with hc
      subst hc
      exact Nat.zero_le _
    · rw [setConsumer_consumers_ne _ _ hcc, consumers_register_id] at hc
      exact h cid c hc

theorem cursorInv_unregister {st : DataPit} (cid : Nat) (h : CursorInv st) :
    CursorInv (unregister_consumer st cid) := by
  intro c2 c hc
  unfold unregister_consumer eraseConsumer unregister_id at hc ⊢
  dsimp at hc ⊢
  by_cases hcc : c2 = cid
  · simp [hcc] at hc
  · simp [hcc] at hc
    exact h c2 c hc

theorem cursorInv_reset {st : DataPit} (cid : Nat) (h : CursorInv st) :
    CursorInv (reset_consumer st cid) := by
  unfold reset_consumer
  cases hc : st.consumers cid with
  | none => exact h
  | some c =>
    intro c2 c3 hc3
    rw [qlen_congr (queues_setConsumer st cid _)]
    by_cases hcc : c2 = cid
    · subst hcc
      rw [setConsumer_consumers_self] at hc3
      injection hc3 with hc3
      subst hc3
      exact Nat.zero_le _
    · rw [setConsumer_consumers_ne st _ hcc] at hc3
      exact h c2 c3 hc3

theorem cursorInv_set_queue_size {st : DataPit} (qid : Int) (n : Nat)
    (h : CursorInv st) : CursorInv (set_queue_size st qid n) := by
  intro c2 c hc2
  cases hq : st.queues qid with
  | some q =>
    have hs : set_queue_size st qid n = setQueue st qid ⟨q.items, n, q.ty⟩ := by
      simp [set_queue_size, hq]
    rw [hs] at hc2 ⊢
    rw [consumers_setQueue] at hc2
    by_cases hk : c.queue_id = qid
    · rw [hk, qlen_setQueue_self]
      have := h c2 c hc2
      rw [hk, qlen_of_some hq] at this
      exact this
    · rw [qlen_setQueue_ne st _ hk]
      exact h c2 c hc2
  | none =>
    have hs : set_queue_size st qid n = setQueue st qid ⟨[], n, ""⟩ := by
      simp [set_queue_size, hq, init_queue_of_absent st qid hq, setQueue_setQueue]
    rw [hs] at hc2 ⊢
    rw [consumers_setQueue] at hc2
    by_cases hk : c.queue_id = qid
    · rw [hk, qlen_setQueue_self]
      have := h c2 c hc2
      rw [hk, qlen_of_none hq] at this
      simpa using this
    · rw [qlen_setQueue_ne st _ hk]
      exact h c2 c hc2

theorem cursorInv_step {st : DataPit} (op : Op) (hop : clearFree op = true)
    (h : CursorInv st) : CursorInv (step st op) := by
  cases op with
  | produce qid ty v => exact cursorInv_produce qid ty v h
  | consume cid ty b => exact cursorInv_consume cid ty b h
  | register qid => exact cursorInv_register qid h
  | unregister cid => exact cursorInv_unregister cid h
  | reset cid => exact cursorInv_reset cid h
  | setQueueSize qid n => exact cursorInv_set_queue_size qid n h
  | clearQueue qid => simp [clearFree] at hop
  | clearAll => simp [clearFree] at hop

theorem cursorInv_initState : CursorInv initState := by
  intro cid c hc
  simp [initState] at hc

theorem cursorInv_run (ops : List Op) (st : DataPit)
    (hops : ∀ op ∈ ops, clearFree op = true) (h : CursorInv st) :
    CursorInv (run st ops) := by
  induction ops generalizing st with
  | nil => exact h
  | cons op rest ih =>
    exact ih _ (fun o ho => hops o (List.mem_cons_of_mem op ho))
      (cursorInv_step op (hops op (List.mem_cons_self op rest)) h)

theorem produceAll_cons (qid : Int) (ty : String) (st : DataPit) (v : Nat)
    (vs : List Nat) :
    produceAll qid ty st (v :: vs)
      = ((produce st qid ty v).1
           :: (produceAll qid ty (produce st qid ty v).2 vs).1,
         (produceAll qid ty (produce st qid ty v).2 vs).2) := rfl

theorem runConsumes_cons (ty : String) (st : DataPit) (x : Nat)
    (order : List Nat) :
    runConsumes ty st (x :: order)
      = ((x, (consume st x ty false).1)
           :: (runConsumes ty (consume st x ty false).2 order).1,
         (runConsumes ty (consume st x ty false).2 order).2) := rfl

theorem resultsFor_cons_self (cid : Nat) (r : ConsumeRes)
    (l : List (Nat × ConsumeRes)) :
    resultsFor cid ((cid, r) :: l) = r :: resultsFor cid l := by
  simp [resultsFor]

theorem resultsFor_cons_ne (cid x : Nat) (r : ConsumeRes)
    (l : List (Nat × ConsumeRes)) (h : x ≠ cid) :
    resultsFor cid ((x, r) :: l) = resultsFor cid l := by
  simp [resultsFor, h]

theorem getD_of_lt (l : List Rec) (i : Nat) (h : i < l.length) :
    l.getD i ⟨"", 0⟩ = l.get ⟨i, h⟩ := by
  simp [List.getD_eq_getElem?_getD, List.getElem?_eq_getElem h]

/-- An all-successful run of `produce` calls appends exactly the given values,
in order, to the target queue, rebinds its type, and touches nothing else. -/
theorem produceAll_spec (qid : Int) (ty : String) (vs : List Nat) (st : DataPit)
    (q : QueueData) (hq : st.queues qid = some q)
    (hok : q.items = [] ∨ q.ty = ty)
    (hsucc : ∀ r ∈ (produceAll qid ty st vs).1, r = data_pit_result.success) :
    (produceAll qid ty st vs).2.queues qid
      = some ⟨q.items ++ vs.map (fun v => ⟨ty, v⟩), q.capacity,
              if vs = [] then q.ty else ty⟩
    ∧ (∀ k, k ≠ qid → (produceAll qid ty st vs).2.queues k = st.queues k)
    ∧ (produceAll qid ty st vs).2.consumers = st.consumers := by
  induction vs generalizing st q with
  | nil =>
    refine ⟨?_, fun k _ => rfl, rfl⟩
    simpa [produceAll] using hq
  | cons v vs ih =>
    rw [produceAll_cons] at hsucc ⊢
    have h1 : (produce st qid ty v).1 = .success :=
      hsucc _ (List.mem_cons_self _ _)
    have hrest : ∀ r ∈ (produceAll qid ty (produce st qid ty v).2 vs).1,
        r = data_pit_result.success :=
      fun r hr => hsucc r (List.mem_cons_of_mem _ hr)
    by_cases hc : q.items.length < q.capacity
    · have hpush := produce_eq_push st qid ty v q hq hok hc
      rw [hpush] at hrest ⊢
      obtain ⟨g1, g2, g3⟩ := ih (setQueue st qid ⟨q.items ++ [⟨ty, v⟩], q.capacity, ty⟩)
        ⟨q.items ++ [⟨ty, v⟩], q.capacity, ty⟩ (setQueue_queues_self st qid _)
        (Or.inr rfl) hrest
      refine ⟨?_, ?_, ?_⟩
      · rw [g1]
        simp
      · intro k hk
        rw [g2 k hk, setQueue_queues_ne st _ hk]
      · rw [g3, consumers_setQueue]
    · rw [produce_eq_full st qid ty v q hq hok (Nat.not_lt.mp hc)] at h1
      cases h1

/-- Two consumers of the same queue, interleaved arbitrarily: each one's
successful reads are exactly the records from its own cursor onward, in queue
order, and the queue itself is untouched by consumption. -/
theorem runConsumes_two (order : List Nat) (st : DataPit) (qid : Int)
    (ty : String) (q : QueueData) (c1 c2 : Nat) (i1 i2 : Nat)
    (e1 e2 : data_pit_result)
    (hq : st.queues qid = some q) (hqty : q.ty = ty) (hty : ty ≠ "")
    (hwt : ∀ r ∈ q.items, r.ty = q.ty)
    (hc1 : st.consumers c1 = some ⟨qid, i1, e1⟩)
    (hc2 : st.consumers c2 = some ⟨qid, i2, e2⟩)
    (hne : c1 ≠ c2)
    (horder : ∀ x ∈ order, x = c1 ∨ x = c2)
    (hcnt1 : i1 + order.count c1 ≤ q.items.length)
    (hcnt2 : i2 + order.count c2 ≤ q.items.length) :
    resultsFor c1 (runConsumes ty st order).1
      = ((q.items.drop i1).take (order.count c1)).map
          (fun r => ConsumeRes.ret (some r.val))
    ∧ resultsFor c2 (runConsumes ty st order).1
      = ((q.items.drop i2).take (order.count c2)).map
          (fun r => ConsumeRes.ret (some r.val))
    ∧ (runConsumes ty st order).2.queues = st.queues := by
  induction order generalizing st i1 i2 e1 e2 with
  | nil => exact ⟨by simp [runConsumes, resultsFor], by simp [runConsumes, resultsFor], rfl⟩
  | cons x rest ih =>
    rcases horder x (List.mem_cons_self x rest) with hx | hx
    · subst hx
      have hcnt : (x :: rest).count x = rest.count x + 1 := List.count_cons_self x rest
      have hi1 : i1 < q.items.length := by
        rw [hcnt] at hcnt1
        omega
      have hr : (q.items.getD i1 ⟨"", 0⟩).ty = ty := by
        rw [getD_of_lt q.items i1 hi1]
        rw [hwt _ (q.items.get_mem i1 hi1), hqty]
      have hok := consume_eq_ok st x ty false ⟨qid, i1, e1⟩ q hc1 hq hqty hty hi1 hr
      rw [runConsumes_cons, hok]
      have hq2 : (setConsumer st x ⟨qid, i1 + 1, e1⟩).queues qid = some q := hq
      have hc1b : (setConsumer st x ⟨qid, i1 + 1, e1⟩).consumers x
          = some ⟨qid, i1 + 1, e1⟩ := setConsumer_consumers_self st x _
      have hc2b : (setConsumer st x ⟨qid, i1 + 1, e1⟩).consumers c2
          = some ⟨qid, i2, e2⟩ := by
        rw [setConsumer_consumers_ne st _ (Ne.symm hne)]
        exact hc2
      have hcntx : (x :: rest).count c2 = rest.count c2 :=
        List.count_cons_of_ne (Ne.symm hne) rest
      obtain ⟨g1, g2, g3⟩ := ih _ (i1 + 1) i2 e1 e2 hq2 hc1b hc2b
        (fun y hy => horder y (List.mem_cons_of_mem x hy))
        (by rw [hcnt] at hcnt1; omega)
        (by rw [hcntx] at hcnt2; exact hcnt2)
      refine ⟨?_, ?_, g3⟩
      · rw [resultsFor_cons_self, g1, hcnt]
        rw [getD_of_lt q.items i1 hi1]
        rw [List.drop_eq_getElem_cons hi1, List.take_succ_cons, List.map_cons]
        rfl
      · rw [resultsFor_cons_ne c2 x _ _ hne, g2, hcntx]
    · subst hx
      have hcnt : (x :: rest).count x = rest.count x + 1 := List.count_cons_self x rest
      have hi2 : i2 < q.items.length := by
        rw [hcnt] at hcnt2
        omega
      have hr : (q.items.getD i2 ⟨"", 0⟩).ty = ty := by
        rw [getD_of_lt q.items i2 hi2]
        rw [hwt _ (q.items.get_mem i2 hi2), hqty]
      have hok := consume_eq_ok st x ty false ⟨qid, i2, e2⟩ q hc2 hq hqty hty hi2 hr
      rw [runConsumes_cons, hok]
      have hq2 : (setConsumer st x ⟨qid, i2 + 1, e2⟩).queues qid = some q := hq
      have hc2b : (setConsumer st x ⟨qid, i2 + 1, e2⟩).consumers x
          = some ⟨qid, i2 + 1, e2⟩ := setConsumer_consumers_self st x _
      have hc1b : (setConsumer st x ⟨qid, i2 + 1, e2⟩).consumers c1
          = some ⟨qid, i1, e1⟩ := by
        rw [setConsumer_consumers_ne st _ hne]
        exact hc1
      have hcntx : (x :: rest).count c1 = rest.count c1 :=
        List.count_cons_of_ne hne rest
      obtain ⟨g1, g2, g3⟩ := ih _ i1 (i2 + 1) e1 e2 hq2 hc1b hc2b
        (fun y hy => horder y (List.mem_cons_of_mem x hy))
        (by rw [hcntx] at hcnt1; exact hcnt1)
        (by rw [hcnt] at hcnt2; omega)
      refine ⟨?_, ?_, g3⟩
      · rw [resultsFor_cons_ne c1 x _ _ (Ne.symm hne), g1, hcntx]
      · rw [resultsFor_cons_self, g2, hcnt]
        rw [getD_of_lt q.items i2 hi2]
        rw [List.drop_eq_getElem_cons hi2, List.take_succ_cons, List.map_cons]
        rfl

/-- An all-successful non-empty run of `produce` calls against an absent or
empty queue leaves the queue holding exactly the produced records, bound to
the produced type, with consumers untouched. -/
theorem produceAll_from_empty (qid : Int) (ty : String) (v : Nat)
    (vs : List Nat) (st0 : DataPit)
    (hq0 : st0.queues qid = none ∨ ∃ cap t0, st0.queues qid = some ⟨[], cap, t0⟩)
    (hsucc : ∀ r ∈ (produceAll qid ty st0 (v :: vs)).1,
        r = data_pit_result.success) :
    (∃ cap, (produceAll qid ty st0 (v :: vs)).2.queues qid
        = some ⟨(v :: vs).map (fun x => ⟨ty, x⟩), cap, ty⟩)
    ∧ (produceAll qid ty st0 (v :: vs)).2.consumers = st0.consumers := by
  rcases hq0 with hq0 | ⟨cap, t0, hq0⟩
  · rw [produceAll_cons, produce_eq_absent st0 qid ty v hq0] at hsucc ⊢
    obtain ⟨g1, g2, g3⟩ := produceAll_spec qid ty vs _
      ⟨[⟨ty, v⟩], DATA_PIT_MAX_QUEUE_SIZE, ty⟩ (setQueue_queues_self st0 qid _)
      (Or.inr rfl) (fun r hr => hsucc r (List.mem_cons_of_mem _ hr))
    refine ⟨⟨DATA_PIT_MAX_QUEUE_SIZE, ?_⟩, ?_⟩
    · rw [g1]
      simp
    · rw [g3, consumers_setQueue]
  · obtain ⟨g1, g2, g3⟩ := produceAll_spec qid ty (v :: vs) st0 ⟨[], cap, t0⟩
      hq0 (Or.inl rfl) hsucc
    refine ⟨⟨cap, ?_⟩, g3⟩
    rw [g1]
    simp

end Lemmas

section Claims

/-- C2: on every reachable state, a produce whose value's type identity
differs from the type identity of the first record of a non-empty queue
returns `type_mismatch` and leaves the whole engine state — hence the queue's
length, contents, bound type, and capacity — unchanged. -/
theorem C2_sticky_type_mismatch (st : DataPit) (qid : Int) (ty : String)
    (v : Nat) (q : QueueData) (r0 : Rec) (rs : List Rec)
    (hst : Reachable st) (hq : st.queues qid = some q)
    (hitems : q.items = r0 :: rs) (hty : ty ≠ r0.ty) :
    produce st qid ty v = (.type_mismatch, st) := by
  have hwt := reachable_wellTyped hst
  have h0 : r0.ty = q.ty :=
    hwt qid q hq r0 (by rw [hitems]; exact List.mem_cons_self r0 rs)
  apply produce_eq_mismatch st qid ty v q hq
  · rw [hitems]
    exact List.cons_ne_nil r0 rs
  · rw [← h0]
    exact fun h => hty h.symm

/-- Witness for C2 at a concrete reachable state: a queue holding one `"i"`
record rejects an `"f"` produce, returning `type_mismatch` with the state
unchanged. -/
theorem C2_witness :
    (run initState [Op.produce 3 "i" 42]).queues 3
        = some ⟨[⟨"i", 42⟩], 1000, "i"⟩
    ∧ produce (run initState [Op.produce 3 "i" 42]) 3 "f" 0
        = (.type_mismatch, run initState [Op.produce 3 "i" 42]) :=
  ⟨by decide,
   C2_sticky_type_mismatch (run initState [Op.produce 3 "i" 42]) 3 "f" 0
     ⟨[⟨"i", 42⟩], 1000, "i"⟩ ⟨"i", 42⟩ [] ⟨[Op.produce 3 "i" 42], rfl⟩
     (by decide) (by decide) (by decide)⟩

/-- C3: the code's actual behaviour at the claim's scenario.  After
`set_queue_size` creates a queue (entry present, type string still empty), a
non-blocking consume by a registered consumer does not prime the type and
report data availability; it enters `while (queue_type(queue_id).empty()) {}`
holding the global mutex and never returns. -/
theorem C3_spin_on_unbound_queue :
    queueTy (run initState [Op.setQueueSize 1 10, Op.register 1]) 1 = ""
    ∧ (consume (run initState [Op.setQueueSize 1 10, Op.register 1]) 1 "i" false).1
        = .spins := by
  decide

/-- C4 counterexample: a queue whose length has reached its capacity, hit by a
produce of a mismatching type, returns `type_mismatch`, not `queue_is_full`
(the type check precedes the capacity check). -/
theorem C4_counterexample :
    qlen (run initState [Op.setQueueSize 1 1, Op.produce 1 "i" 42]) 1 = 1
    ∧ queueCapacity (run initState [Op.setQueueSize 1 1, Op.produce 1 "i" 42]) 1
        = some 1
    ∧ (produce (run initState [Op.setQueueSize 1 1, Op.produce 1 "i" 42]) 1 "f" 7).1
        = .type_mismatch
    ∧ (produce (run initState [Op.setQueueSize 1 1, Op.produce 1 "i" 42]) 1 "f" 7).1
        ≠ .queue_is_full := by
  decide

/-- C4 amended: a produce that passes the type check (empty queue or matching
bound type) against a queue whose length has reached its capacity returns
`queue_is_full` and mutates nothing, so exactly the records already present
stay consumable. -/
theorem C4_capacity_enforcement (st : DataPit) (qid : Int) (ty : String)
    (v : Nat) (q : QueueData) (hq : st.queues qid = some q)
    (hok : q.items = [] ∨ q.ty = ty) (hcap : q.capacity ≤ q.items.length) :
    (produce st qid ty v).1 = .queue_is_full
    ∧ (produce st qid ty v).2 = st := by
  rw [produce_eq_full st qid ty v q hq hok hcap]
  exact ⟨rfl, rfl⟩

/-- Witness for C4, the spec's own scenario: capacity 10, ten successful
produces, the 11th returns `queue_is_full`, the state is unchanged, and
exactly 10 records remain consumable. -/
theorem C4_witness :
    (run initState [Op.setQueueSize 1 10,
        Op.produce 1 "i" 0, Op.produce 1 "i" 1, Op.produce 1 "i" 2,
        Op.produce 1 "i" 3, Op.produce 1 "i" 4, Op.produce 1 "i" 5,
        Op.produce 1 "i" 6, Op.produce 1 "i" 7, Op.produce 1 "i" 8,
        Op.produce 1 "i" 9]).queues 1
      = some ⟨[⟨"i", 0⟩, ⟨"i", 1⟩, ⟨"i", 2⟩, ⟨"i", 3⟩, ⟨"i", 4⟩, ⟨"i", 5⟩,
               ⟨"i", 6⟩, ⟨"i", 7⟩, ⟨"i", 8⟩, ⟨"i", 9⟩], 10, "i"⟩
    ∧ (produce (run initState [Op.setQueueSize 1 10,
        Op.produce 1 "i" 0, Op.produce 1 "i" 1, Op.produce 1 "i" 2,
        Op.produce 1 "i" 3, Op.produce 1 "i" 4, Op.produce 1 "i" 5,
        Op.produce 1 "i" 6, Op.produce 1 "i" 7, Op.produce 1 "i" 8,
        Op.produce 1 "i" 9]) 1 "i" 10).1 = .queue_is_full
    ∧ (produce (run initState [Op.setQueueSize 1 10,
        Op.produce 1 "i" 0, Op.produce 1 "i" 1, Op.produce 1 "i" 2,
        Op.produce 1 "i" 3, Op.produce 1 "i" 4, Op.produce 1 "i" 5,
        Op.produce 1 "i" 6, Op.produce 1 "i" 7, Op.produce 1 "i" 8,
        Op.produce 1 "i" 9]) 1 "i" 10).2
      = run initState [Op.setQueueSize 1 10,
        Op.produce 1 "i" 0, Op.produce 1 "i" 1, Op.produce 1 "i" 2,
        Op.produce 1 "i" 3, Op.produce 1 "i" 4, Op.produce 1 "i" 5,
        Op.produce 1 "i" 6, Op.produce 1 "i" 7, Op.produce 1 "i" 8,
        Op.produce 1 "i" 9]
    ∧ (queueItems (run initState [Op.setQueueSize 1 10,
        Op.produce 1 "i" 0, Op.produce 1 "i" 1, Op.produce 1 "i" 2,
        Op.produce 1 "i" 3, Op.produce 1 "i" 4, Op.produce 1 "i" 5,
        Op.produce 1 "i" 6, Op.produce 1 "i" 7, Op.produce 1 "i" 8,
        Op.produce 1 "i" 9]) 1).length = 10 :=
  ⟨by decide,
   (C4_capacity_enforcement _ 1 "i" 10
      ⟨[⟨"i", 0⟩, ⟨"i", 1⟩, ⟨"i", 2⟩, ⟨"i", 3⟩, ⟨"i", 4⟩, ⟨"i", 5⟩,
        ⟨"i", 6⟩, ⟨"i", 7⟩, ⟨"i", 8⟩, ⟨"i", 9⟩], 10, "i"⟩
      (by decide) (Or.inr (by decide)) (by decide)).1,
   (C4_capacity_enforcement _ 1 "i" 10
      ⟨[⟨"i", 0⟩, ⟨"i", 1⟩, ⟨"i", 2⟩, ⟨"i", 3⟩, ⟨"i", 4⟩, ⟨"i", 5⟩,
        ⟨"i", 6⟩, ⟨"i", 7⟩, ⟨"i", 8⟩, ⟨"i", 9⟩], 10, "i"⟩
      (by decide) (Or.inr (by decide)) (by decide)).2,
   by decide⟩

/-- C5 counterexample: a successful consume does not latch `success`; the
previously latched `no_data_available` is still reported afterwards. -/
theorem C5_counterexample :
    (consume (run initState
        [Op.register 1, Op.consume 1 "i" false, Op.produce 1 "i" 5]) 1 "i" false).1
      = .ret (some 5)
    ∧ get_last_error (consume (run initState
        [Op.register 1, Op.consume 1 "i" false, Op.produce 1 "i" 5]) 1 "i" false).2 1
      = .no_data_available
    ∧ .no_data_available ≠ data_pit_result.success := by
  decide

/-- C5 amended: a successful consume (one that returns a value) leaves the
consumer's latched error exactly as it was, so `get_last_error` immediately
afterwards reports whatever error was latched before the call, not
necessarily `success`. -/
theorem C5_success_keeps_error (st : DataPit) (cid : Nat) (ty : String)
    (b : Bool) (c : ConsumerData) (q : QueueData)
    (hc : st.consumers cid = some c) (hq : st.queues c.queue_id = some q)
    (h1 : q.ty = ty) (hty : ty ≠ "") (hi : c.index < q.items.length)
    (hr : (q.items.getD c.index ⟨"", 0⟩).ty = ty) :
    (consume st cid ty b).1 = .ret (some ((q.items.getD c.index ⟨"", 0⟩).val))
    ∧ get_last_error (consume st cid ty b).2 cid = c.last_error := by
  rw [consume_eq_ok st cid ty b c q hc hq h1 hty hi hr]
  exact ⟨rfl, by simp [get_last_error, setConsumer_consumers_self]⟩

/-- Witness for C5 amended: the concrete scenario of the counterexample,
driven through the theorem — the latched `no_data_available` survives the
successful consume. -/
theorem C5_witness :
    (run initState [Op.register 1, Op.consume 1 "i" false, Op.produce 1 "i" 5]).consumers 1
      = some ⟨1, 0, .no_data_available⟩
    ∧ (consume (run initState
        [Op.register 1, Op.consume 1 "i" false, Op.produce 1 "i" 5]) 1 "i" false).1
      = .ret (some 5)
    ∧ get_last_error (consume (run initState
        [Op.register 1, Op.consume 1 "i" false, Op.produce 1 "i" 5]) 1 "i" false).2 1
      = .no_data_available :=
  ⟨by decide,
   (C5_success_keeps_error _ 1 "i" false ⟨1, 0, .no_data_available⟩
      ⟨[⟨"i", 5⟩], 1000, "i"⟩ (by decide) (by decide) (by decide) (by decide)
      (by decide) (by decide)).1,
   (C5_success_keeps_error _ 1 "i" false ⟨1, 0, .no_data_available⟩
      ⟨[⟨"i", 5⟩], 1000, "i"⟩ (by decide) (by decide) (by decide) (by decide)
      (by decide) (by decide)).2⟩

/-- C6 counterexample: `set_queue_size` on an existing queue holding a record
keeps the record (the claim requires the queue to be left with no records). -/
theorem C6_counterexample :
    (set_queue_size (run initState [Op.produce 1 "i" 5]) 1 5).queues 1
      = some ⟨[⟨"i", 5⟩], 5, "i"⟩
    ∧ queueItems (set_queue_size (run initState [Op.produce 1 "i" 5]) 1 5) 1 ≠ [] := by
  decide

/-- C6 amended: `set_queue_size(q, n)` leaves the queue existing with capacity
`n`; it creates the queue (empty, unbound type) when absent, but when the
queue already exists its records and bound type are preserved — the call is
not a destructive reset of content. -/
theorem C6_set_capacity (st : DataPit) (qid : Int) (n : Nat) :
    ((set_queue_size st qid n).queues qid).isSome = true
    ∧ queueCapacity (set_queue_size st qid n) qid = some n
    ∧ queueItems (set_queue_size st qid n) qid = queueItems st qid
    ∧ queueTy (set_queue_size st qid n) qid = queueTy st qid := by
  cases hq : st.queues qid with
  | some q =>
    have hs : set_queue_size st qid n = setQueue st qid ⟨q.items, n, q.ty⟩ := by
      simp [set_queue_size, hq]
    rw [hs]
    refine ⟨?_, ?_, ?_, ?_⟩ <;>
      simp [queueItems, queueTy, queueCapacity, setQueue_queues_self, hq]
  | none =>
    have hs : set_queue_size st qid n = setQueue st qid ⟨[], n, ""⟩ := by
      simp [set_queue_size, hq, init_queue_of_absent st qid hq, setQueue_setQueue]
    rw [hs]
    refine ⟨?_, ?_, ?_, ?_⟩ <;>
      simp [queueItems, queueTy, queueCapacity, setQueue_queues_self, hq]

/-- Witness for C6 amended: resizing a queue holding one record to capacity 10
keeps the record and sets the capacity. -/
theorem C6_witness :
    queueItems (set_queue_size (run initState [Op.produce 1 "i" 5]) 1 10) 1
      = queueItems (run initState [Op.produce 1 "i" 5]) 1
    ∧ queueCapacity (set_queue_size (run initState [Op.produce 1 "i" 5]) 1 10) 1
      = some 10 :=
  ⟨(C6_set_capacity (run initState [Op.produce 1 "i" 5]) 1 10).2.2.1,
   (C6_set_capacity (run initState [Op.produce 1 "i" 5]) 1 10).2.1⟩

/-- C7 counterexample: after `clear_queue` the bound type persists, and a
consume with a different type identity still returns (and latches)
`type_mismatch`, contradicting the claim that any type is then accepted. -/
theorem C7_counterexample :
    queueItems (run initState
        [Op.register 1, Op.produce 1 "i" 5, Op.clearQueue 1]) 1 = []
    ∧ queueTy (run initState
        [Op.register 1, Op.produce 1 "i" 5, Op.clearQueue 1]) 1 = "i"
    ∧ (consume (run initState
        [Op.register 1, Op.produce 1 "i" 5, Op.clearQueue 1]) 1 "f" false).1
        = .ret none
    ∧ get_last_error (consume (run initState
        [Op.register 1, Op.produce 1 "i" 5, Op.clearQueue 1]) 1 "f" false).2 1
        = .type_mismatch := by
  decide

/-- C7 amended: `clear_queue` empties a bound queue but keeps its type
binding.  Afterwards a produce of any type succeeds (the empty-queue produce
path skips the type check and rebinds), while a consume requesting a type
different from the retained binding still fails with `type_mismatch`. -/
theorem C7_clear_keeps_binding (st : DataPit) (qid : Int) (cid : Nat)
    (qd : QueueData) (cd : ConsumerData) (ty2 : String) (v : Nat)
    (hq : st.queues qid = some qd) (hty : qd.ty ≠ "") (hcap : 0 < qd.capacity)
    (hc : st.consumers cid = some cd) (hcq : cd.queue_id = qid)
    (hne : ty2 ≠ qd.ty) :
    queueItems (clear_queue st qid) qid = []
    ∧ queueTy (clear_queue st qid) qid = qd.ty
    ∧ (produce (clear_queue st qid) qid ty2 v).1 = .success
    ∧ consume (clear_queue st qid) cid ty2 false
        = (.ret none, set_last_error (clear_queue st qid) cid .type_mismatch) := by
  have hcl : clear_queue st qid = setQueue st qid ⟨[], qd.capacity, qd.ty⟩ := by
    simp [clear_queue, hq]
  rw [hcl]
  refine ⟨?_, ?_, ?_, ?_⟩
  · simp [queueItems, setQueue_queues_self]
  · simp [queueTy, setQueue_queues_self]
  · rw [produce_eq_push _ qid ty2 v ⟨[], qd.capacity, qd.ty⟩
        (setQueue_queues_self st qid _) (Or.inl rfl) (by simpa using hcap)]
  · apply consume_eq_mismatch _ cid ty2 false cd ⟨[], qd.capacity, qd.ty⟩
    · rw [consumers_setQueue]
      exact hc
    · rw [hcq]
      exact setQueue_queues_self st qid _
    · exact hty
    · exact fun h => hne h.symm

/-- Witness for C7 amended at a concrete state: clear an `"i"`-bound queue,
then an `"f"` produce succeeds while an `"f"` consume latches
`type_mismatch`. -/
theorem C7_witness :
    (run initState [Op.register 1, Op.produce 1 "i" 5]).queues 1
      = some ⟨[⟨"i", 5⟩], 1000, "i"⟩
    ∧ queueTy (clear_queue (run initState
        [Op.register 1, Op.produce 1 "i" 5]) 1) 1 = "i"
    ∧ (produce (clear_queue (run initState
        [Op.register 1, Op.produce 1 "i" 5]) 1) 1 "f" 9).1 = .success
    ∧ consume (clear_queue (run initState
        [Op.register 1, Op.produce 1 "i" 5]) 1) 1 "f" false
      = (.ret none, set_last_error (clear_queue (run initState
          [Op.register 1, Op.produce 1 "i" 5]) 1) 1 .type_mismatch) :=
  ⟨by decide,
   (C7_clear_keeps_binding _ 1 1 ⟨[⟨"i", 5⟩], 1000, "i"⟩ ⟨1, 0, .success⟩ "f" 9
      (by decide) (by decide) (by decide) (by decide) (by decide)
      (by decide)).2.1,
   (C7_clear_keeps_binding _ 1 1 ⟨[⟨"i", 5⟩], 1000, "i"⟩ ⟨1, 0, .success⟩ "f" 9
      (by decide) (by decide) (by decide) (by decide) (by decide)
      (by decide)).2.2.1,
   (C7_clear_keeps_binding _ 1 1 ⟨[⟨"i", 5⟩], 1000, "i"⟩ ⟨1, 0, .success⟩ "f" 9
      (by decide) (by decide) (by decide) (by decide) (by decide)
      (by decide)).2.2.2⟩

/-- C9 counterexample: unregistering an id that was never registered is not a
no-op — the id is still pushed onto the allocator free-list. -/
theorem C9_counterexample :
    initState.consumers 5 = none
    ∧ initState.released_ids = []
    ∧ (unregister_consumer initState 5).released_ids = [5] := by
  decide

/-- C9 amended: `unregister_consumer` on a non-registered id leaves the
consumer table, queue table and id counter unchanged (the erase is a no-op),
but unconditionally appends the id to the allocator's free-list; repeated
unregister calls can therefore enqueue duplicates, and a later
`register_consumer` can hand out an id equal to one that is still live. -/
theorem C9_unregister_unknown (st : DataPit) (cid : Nat)
    (h : st.consumers cid = none) :
    (unregister_consumer st cid).consumers = st.consumers
    ∧ (unregister_consumer st cid).queues = st.queues
    ∧ (unregister_consumer st cid).next_consumer_id = st.next_consumer_id
    ∧ (unregister_consumer st cid).released_ids = st.released_ids ++ [cid] := by
  refine ⟨?_, rfl, rfl, rfl⟩
  funext k
  show (if k = cid then none else st.consumers k) = st.consumers k
  by_cases hk : k = cid
  · rw [if_pos hk, hk, h]
  · rw [if_neg hk]

/-- Witness for C9 amended, plus the forced consequence: after
register–unregister–unregister, two successive registrations both return id
1, the second while consumer 1 is already live. -/
theorem C9_witness :
    initState.consumers 9 = none
    ∧ (unregister_consumer initState 9).released_ids
        = initState.released_ids ++ [9]
    ∧ (register_consumer (run initState
         [Op.register 7, Op.unregister 1, Op.unregister 1, Op.register 7]) 7).1 = 1
    ∧ ((run initState
         [Op.register 7, Op.unregister 1, Op.unregister 1, Op.register 7]).consumers 1).isSome
        = true :=
  ⟨by decide, (C9_unregister_unknown initState 9 (by decide)).2.2.2,
   by decide, by decide⟩

/-- C10: against an existing empty queue (capacity permitting), produce
succeeds for a value of any type identity and rebinds the queue's type tag,
while a consume requesting a type different from the same bound type on that
same empty queue returns `type_mismatch` — the binding is checked
asymmetrically for producers and consumers of an empty queue. -/
theorem C10_empty_queue_asymmetry (st : DataPit) (qid : Int) (cid : Nat)
    (cap : Nat) (t0 ty : String) (v : Nat) (i : Nat) (e : data_pit_result)
    (hq : st.queues qid = some ⟨[], cap, t0⟩) (hcap : 0 < cap)
    (hc : st.consumers cid = some ⟨qid, i, e⟩)
    (ht0 : t0 ≠ "") (hne : ty ≠ t0) :
    produce st qid ty v = (.success, setQueue st qid ⟨[⟨ty, v⟩], cap, ty⟩)
    ∧ consume st cid ty false
        = (.ret none, set_last_error st cid .type_mismatch) := by
  constructor
  · have h := produce_eq_push st qid ty v ⟨[], cap, t0⟩ hq (Or.inl rfl)
      (by simpa using hcap)
    simpa using h
  · exact consume_eq_mismatch st cid ty false ⟨qid, i, e⟩ ⟨[], cap, t0⟩ hc hq
      ht0 (fun h => hne h.symm)

/-- Witness for C10 at a concrete state: an empty queue still bound to `"i"`
accepts an `"f"` produce (rebinding to `"f"`) while an `"f"` consume against
it reports `type_mismatch`. -/
theorem C10_witness :
    (run initState [Op.register 4, Op.produce 4 "i" 9, Op.clearQueue 4]).queues 4
      = some ⟨[], 1000, "i"⟩
    ∧ produce (run initState
        [Op.register 4, Op.produce 4 "i" 9, Op.clearQueue 4]) 4 "f" 7
      = (.success, setQueue (run initState
          [Op.register 4, Op.produce 4 "i" 9, Op.clearQueue 4]) 4 ⟨[⟨"f", 7⟩], 1000, "f"⟩)
    ∧ consume (run initState
        [Op.register 4, Op.produce 4 "i" 9, Op.clearQueue 4]) 1 "f" false
      = (.ret none, set_last_error (run initState
          [Op.register 4, Op.produce 4 "i" 9, Op.clearQueue 4]) 1 .type_mismatch) :=
  ⟨by decide,
   (C10_empty_queue_asymmetry _ 4 1 1000 "i" "f" 7 0 .success (by decide)
      (by decide) (by decide) (by decide) (by decide)).1,
   (C10_empty_queue_asymmetry _ 4 1 1000 "i" "f" 7 0 .success (by decide)
      (by decide) (by decide) (by decide) (by decide)).2⟩

/-- C1: FIFO broadcast.  After any all-successful sequence of produces of
`v1, …, vn` into a queue that was empty or absent, two distinct consumers
registered to that queue with cursor 0 may interleave their non-blocking
consume calls arbitrarily: each consumer's results are exactly the prefix
`v1, v2, …` of the produced values, in production order (all its calls
succeed), and no record is ever removed — the queue still holds all `n`
records afterwards. -/
theorem C1_fifo_broadcast (qid : Int) (ty : String) (vs : List Nat)
    (st0 : DataPit) (c1 c2 : Nat) (e1 e2 : data_pit_result)
    (order : List Nat)
    (hty : ty ≠ "")
    (hq0 : st0.queues qid = none ∨ ∃ cap t0, st0.queues qid = some ⟨[], cap, t0⟩)
    (hsucc : ∀ r ∈ (produceAll qid ty st0 vs).1, r = data_pit_result.success)
    (hc1 : st0.consumers c1 = some ⟨qid, 0, e1⟩)
    (hc2 : st0.consumers c2 = some ⟨qid, 0, e2⟩)
    (hne : c1 ≠ c2)
    (horder : ∀ x ∈ order, x = c1 ∨ x = c2)
    (hcnt1 : order.count c1 ≤ vs.length)
    (hcnt2 : order.count c2 ≤ vs.length) :
    resultsFor c1 (runConsumes ty (produceAll qid ty st0 vs).2 order).1
      = (vs.take (order.count c1)).map (fun x => ConsumeRes.ret (some x))
    ∧ resultsFor c2 (runConsumes ty (produceAll qid ty st0 vs).2 order).1
      = (vs.take (order.count c2)).map (fun x => ConsumeRes.ret (some x))
    ∧ queueItems (runConsumes ty (produceAll qid ty st0 vs).2 order).2 qid
      = vs.map (fun x => ⟨ty, x⟩) := by
  cases vs with
  | nil =>
    have horder0 : order = [] := by
      cases order with
      | nil => rfl
      | cons x rest =>
        exfalso
        rcases horder x (List.mem_cons_self x rest) with hx | hx
        · subst hx
          rw [List.count_cons_self] at hcnt1
          simp only [List.length_nil] at hcnt1
          omega
        · subst hx
          rw [List.count_cons_self] at hcnt2
          simp only [List.length_nil] at hcnt2
          omega
    subst horder0
    refine ⟨by simp [produceAll, runConsumes, resultsFor],
            by simp [produceAll, runConsumes, resultsFor], ?_⟩
    rcases hq0 with h | ⟨cap, t0, h⟩ <;>
      simp [produceAll, runConsumes, queueItems, h]
  | cons v vs2 =>
    obtain ⟨⟨cap, hP⟩, hCons⟩ := produceAll_from_empty qid ty v vs2 st0 hq0 hsucc
    have hc1P : (produceAll qid ty st0 (v :: vs2)).2.consumers c1
        = some ⟨qid, 0, e1⟩ := by rw [hCons]; exact hc1
    have hc2P : (produceAll qid ty st0 (v :: vs2)).2.consumers c2
        = some ⟨qid, 0, e2⟩ := by rw [hCons]; exact hc2
    obtain ⟨g1, g2, g3⟩ := runConsumes_two order
      (produceAll qid ty st0 (v :: vs2)).2 qid ty
      ⟨(v :: vs2).map (fun x => ⟨ty, x⟩), cap, ty⟩ c1 c2 0 0 e1 e2
      hP rfl hty
      (by
        intro r hr
        simp only [List.mem_map] at hr
        obtain ⟨x, hx, rfl⟩ := hr
        rfl)
      hc1P hc2P hne horder
      (by simpa using hcnt1)
      (by simpa using hcnt2)
    refine ⟨?_, ?_, ?_⟩
    · rw [g1, List.drop_zero]
      dsimp only []
      rw [← List.map_take, List.map_map]
      rfl
    · rw [g2, List.drop_zero]
      dsimp only []
      rw [← List.map_take, List.map_map]
      rfl
    · simp [queueItems, g3, hP]

/-- Witness for C1: values 10, 20, 30 produced into queue 7; consumers 1 and 2
alternate strictly; each receives 10, 20, 30 in order, and the queue still
holds all three records. -/
theorem C1_witness :
    (run initState [Op.register 7, Op.register 7]).queues 7 = none
    ∧ (run initState [Op.register 7, Op.register 7]).consumers 1
        = some ⟨7, 0, .success⟩
    ∧ (run initState [Op.register 7, Op.register 7]).consumers 2
        = some ⟨7, 0, .success⟩
    ∧ (∀ r ∈ (produceAll 7 "T" (run initState [Op.register 7, Op.register 7])
          [10, 20, 30]).1, r = data_pit_result.success)
    ∧ resultsFor 1 (runConsumes "T"
        (produceAll 7 "T" (run initState [Op.register 7, Op.register 7])
          [10, 20, 30]).2 [1, 2, 1, 2, 1, 2]).1
      = [.ret (some 10), .ret (some 20), .ret (some 30)]
    ∧ resultsFor 2 (runConsumes "T"
        (produceAll 7 "T" (run initState [Op.register 7, Op.register 7])
          [10, 20, 30]).2 [1, 2, 1, 2, 1, 2]).1
      = [.ret (some 10), .ret (some 20), .ret (some 30)]
    ∧ queueItems (runConsumes "T"
        (produceAll 7 "T" (run initState [Op.register 7, Op.register 7])
          [10, 20, 30]).2 [1, 2, 1, 2, 1, 2]).2 7
      = [⟨"T", 10⟩, ⟨"T", 20⟩, ⟨"T", 30⟩] :=
  ⟨by decide, by decide, by decide, by decide,
   (C1_fifo_broadcast 7 "T" [10, 20, 30] _ 1 2 .success .success
      [1, 2, 1, 2, 1, 2] (by decide) (Or.inl (by decide)) (by decide)
      (by decide) (by decide) (by decide) (by decide) (by decide)
      (by decide)).1,
   (C1_fifo_broadcast 7 "T" [10, 20, 30] _ 1 2 .success .success
      [1, 2, 1, 2, 1, 2] (by decide) (Or.inl (by decide)) (by decide)
      (by decide) (by decide) (by decide) (by decide) (by decide)
      (by decide)).2.1,
   (C1_fifo_broadcast 7 "T" [10, 20, 30] _ 1 2 .success .success
      [1, 2, 1, 2, 1, 2] (by decide) (Or.inl (by decide)) (by decide)
      (by decide) (by decide) (by decide) (by decide) (by decide)
      (by decide)).2.2⟩

/-- C8 counterexample: a consumer consumes one record, then `clear_queue`
empties the queue; the cursor (1) now exceeds the sequence length (0), so the
claimed invariant fails on states reached through clears. -/
theorem C8_counterexample :
    ((run initState [Op.register 7, Op.produce 7 "i" 1, Op.consume 1 "i" false,
        Op.clearQueue 7]).consumers 1).map ConsumerData.index = some 1
    ∧ qlen (run initState [Op.register 7, Op.produce 7 "i" 1,
        Op.consume 1 "i" false, Op.clearQueue 7]) 7 = 0
    ∧ ¬ CursorInv (run initState [Op.register 7, Op.produce 7 "i" 1,
        Op.consume 1 "i" false, Op.clearQueue 7]) := by
  refine ⟨by decide, by decide, fun h => ?_⟩
  exact absurd (h 1 ⟨7, 1, .success⟩ (by decide)) (by decide)

/-- C8 amended: in every state reachable without `clear_queue`/`clear_all`,
every registered consumer's cursor is at most its bound queue's current
sequence length; a clear can leave a cursor pointing past the emptied
sequence (see the counterexample), after which reads report no data until the
length catches up. -/
theorem C8_cursor_le_length (ops : List Op)
    (hops : ∀ op ∈ ops, clearFree op = true) :
    CursorInv (run initState ops) :=
  cursorInv_run ops initState hops cursorInv_initState

/-- Witness for C8 amended on a concrete clear-free run: register, produce,
consume. -/
theorem C8_witness :
    (∀ op ∈ [Op.register 7, Op.produce 7 "i" 1, Op.consume 1 "i" false],
        clearFree op = true)
    ∧ CursorInv (run initState
        [Op.register 7, Op.produce 7 "i" 1, Op.consume 1 "i" false]) :=
  ⟨by decide, C8_cursor_le_length _ (by decide)⟩

end Claims

end DataPit
